import Mathlib

/-!
Shallow embedding of `source/isaaclab/isaaclab/devices/spacemouse/se2_spacemouse.py`
(class `Se2SpaceMouse`), a SpaceMouse adapter for SE(2) teleoperation commands.

Python floats are modelled as rationals; numpy arrays as lists of rationals;
out-of-bounds indexing (a Python `IndexError`) as `Option` failure.  The base
class `SpaceMouseBase` is not part of the supplied source; its collaborator
surface (`_start_timer`, `_read_mouse_state`, `_transform_state_to_twist`,
the `_state` field and the `_additional_callbacks` table) is modelled from the
spec, which describes it as an external collaborator exposing
`start_timer()`, `read_device_state() -> state(buttons: bool[], axes: float[6])`
and a mapping of button-name to optional callback.

The poll handler `_listen_for_updates` is embedded as a state transformer that
also records a trace of the observable actions it performs, in the order the
source performs them.
-/

namespace Se2SpaceMouse

/-- Modelled from the spec: the raw device state exposed by the base-class
reader; `buttons` are boolean flags, `axes` the 6 motion axes. -/
structure MouseState where
  buttons : List Bool
  axes : List ℚ
deriving DecidableEq

/-- Observable actions of the poll handler, recorded in execution order.

`startTimer` carries the interval the timer is re-armed with (modelled from
the spec: the base class re-arms with the constructor-supplied interval).
`lookupCallback k` records that the expression `self._additional_callbacks[k]`
was evaluated; `invokeCallback k` would record an actual call of the callback
registered under `k` — the source never performs such a call (the lookup
expression is a bare statement, not a call), so the embedding never emits it. -/
inductive Event where
  | startTimer (interval_ms : ℚ)
  | readMouseState
  | lookupCallback (key : String)
  | invokeCallback (key : String)
  | resetCommand
  | processTwist (twist : List ℚ)
deriving DecidableEq

/-- Holds exactly on `invokeCallback` events. -/
def Event.isInvoke : Event → Bool
  | Event.invokeCallback _ => true
  | _ => false

/-- Holds exactly on `lookupCallback` events. -/
def Event.isLookup : Event → Bool
  | Event.lookupCallback _ => true
  | _ => false

/-- The state of a `Se2SpaceMouse` object: the three sensitivity constants and
the update interval stored by `__init__`, the 3-element base command, and the
base-class fields `_state` (last raw reading) and `_additional_callbacks`
(the set of registered callback keys; the callables themselves are opaque to
this file, which only ever looks them up by key). -/
structure Device where
  v_x_sensitivity : ℚ
  v_y_sensitivity : ℚ
  omega_z_sensitivity : ℚ
  interval_ms : ℚ
  base_command : List ℚ
  state : MouseState
  additional_callbacks : List String
deriving DecidableEq

/-- Default of the `v_x_sensitivity` argument of `__init__` (0.8). -/
def v_x_sensitivity_default : ℚ := 4 / 5

/-- Default of the `v_y_sensitivity` argument of `__init__` (0.4). -/
def v_y_sensitivity_default : ℚ := 2 / 5

/-- Default of the `omega_z_sensitivity` argument of `__init__` (1.0). -/
def omega_z_sensitivity_default : ℚ := 1

/-- Default of the `interval_ms` argument of `__init__` (10.0). -/
def interval_ms_default : ℚ := 10

/-- Embeds `__init__`: stores the three sensitivities and the interval and sets the
base command to `np.zeros(3)`.  The initial raw state and callback table come
from the base-class constructor, which is outside the supplied source; they
are passed as parameters (modelled from the spec's collaborator description). -/
def init (v_x_sensitivity v_y_sensitivity omega_z_sensitivity interval_ms : ℚ)
    (state0 : MouseState) (callbacks0 : List String) : Device :=
  { v_x_sensitivity := v_x_sensitivity
    v_y_sensitivity := v_y_sensitivity
    omega_z_sensitivity := omega_z_sensitivity
    interval_ms := interval_ms
    base_command := List.replicate 3 (0 : ℚ)
    state := state0
    additional_callbacks := callbacks0 }

/-- Modelled from the spec: registering a callback under a button-name key in
the base class's mapping of button-name to optional callback. -/
def add_callback (d : Device) (key : String) : Device :=
  { d with additional_callbacks := key :: d.additional_callbacks }

/-- Embeds `advance`: returns `self._base_command` and changes nothing; the returned
pair is (return value, post-state). -/
def advance (d : Device) : List ℚ × Device :=
  (d.base_command, d)

/-- Embeds `reset`: `self._base_command.fill(0.0)` — every element of the stored
command is set to zero in place (the length is whatever it was). -/
def reset (d : Device) : Device :=
  { d with base_command := d.base_command.map (fun _ => (0 : ℚ)) }

/-- Modelled from the spec: the base-class `_read_mouse_state` reads the
hardware and stores the fresh reading in `self._state`. -/
def read_mouse_state (d : Device) (input : MouseState) : Device :=
  { d with state := input }

/-- Modelled from the spec: the base-class `_transform_state_to_twist` turns
the raw reading into the 6-vector twist; the spec exposes the reading's motion
axes as `axes: float[6]`, which are the twist components. -/
def transform_state_to_twist (s : MouseState) : List ℚ :=
  s.axes

/-- Embeds `_process_twist_command`: sets `self._base_command = np.zeros(3)` and then
assigns indices 0, 1, 2 from `twist[0]`, `twist[1]`, `twist[5]` scaled by the
stored sensitivities, in source statement order (a too-short twist raises at
the corresponding read, modelled by `Option` failure). -/
def process_twist_command (d : Device) (twist : List ℚ) : Option Device := do
  let cmd0 := List.replicate 3 (0 : ℚ)
  let t0 ← twist[0]?
  let cmd1 := cmd0.set 0 (d.v_x_sensitivity * t0)
  let t1 ← twist[1]?
  let cmd2 := cmd1.set 1 (d.v_y_sensitivity * t1)
  let t5 ← twist[5]?
  let cmd3 := cmd2.set 2 (d.omega_z_sensitivity * t5)
  pure { d with base_command := cmd3 }

/-- Embeds `_listen_for_updates`: re-arm the timer, read the device state, run the two
button conditionals (with Python's short-circuit evaluation order on the
`and`/`not` conditions), then unconditionally transform the stored state into
a twist and process it.  Returns the post-state and the trace of observable
actions; `none` models an uncaught `IndexError`. -/
def listen_for_updates (d0 : Device) (input : MouseState) :
    Option (Device × List Event) := do
  -- self._start_timer()
  let tr1 := [Event.startTimer d0.interval_ms]
  -- self._read_mouse_state()
  let d1 := read_mouse_state d0 input
  let tr2 := tr1 ++ [Event.readMouseState]
  -- the two button conditionals
  let p ← (do
    -- if self._state.buttons[0] and not self._state.buttons[1]:
    let condL ← (do
      let b0 ← d1.state.buttons[0]?
      if b0 then do
        let b1 ← d1.state.buttons[1]?
        pure (!b1)
      else
        pure false)
    if condL then
      -- if "L" in self._additional_callbacks: self._additional_callbacks["L"]
      if d1.additional_callbacks.contains "L" then
        pure (d1, tr2 ++ [Event.lookupCallback "L"])
      else
        pure (d1, tr2)
    else do
      -- elif self._state.buttons[1] and not self._state.buttons[0]:
      let condR ← (do
        let b1 ← d1.state.buttons[1]?
        if b1 then do
          let b0 ← d1.state.buttons[0]?
          pure (!b0)
        else
          pure false)
      if condR then
        -- self.reset()
        let d2 := reset d1
        let tr3 := tr2 ++ [Event.resetCommand]
        -- if "R" in self._additional_callbacks: self._additional_callbacks["R"]
        if d2.additional_callbacks.contains "R" then
          pure (d2, tr3 ++ [Event.lookupCallback "R"])
        else
          pure (d2, tr3)
      else
        pure (d1, tr2))
  -- twist = self._transform_state_to_twist(self._state)
  let twist := transform_state_to_twist p.1.state
  -- self._process_twist_command(twist)
  let d3 ← process_twist_command p.1 twist
  pure (d3, p.2 ++ [Event.processTwist twist])

/-!  General helper lemmas shared by the claim theorems. -/

/-- Characterization of a complete poll: when both button flags and the three
used axis components exist, the poll succeeds, the final device stores the
fresh reading and the projected command (the projection runs unconditionally
and overwrites any reset), and the trace is timer, read, the branch events,
then the twist processing. -/
theorem listen_eq (d : Device) (input : MouseState) (b0 b1 : Bool) (t0 t1 t5 : ℚ)
    (hb0 : input.buttons[0]? = some b0) (hb1 : input.buttons[1]? = some b1)
    (h0 : input.axes[0]? = some t0) (h1 : input.axes[1]? = some t1)
    (h5 : input.axes[5]? = some t5) :
    listen_for_updates d input =
      some
        ({ d with
            state := input
            base_command :=
              [d.v_x_sensitivity * t0, d.v_y_sensitivity * t1,
               d.omega_z_sensitivity * t5] },
          [Event.startTimer d.interval_ms, Event.readMouseState]
            ++ (if b0 && !b1 then
                  (if d.additional_callbacks.contains "L" then
                    [Event.lookupCallback "L"] else [])
                else if b1 && !b0 then
                  Event.resetCommand ::
                    (if d.additional_callbacks.contains "R" then
                      [Event.lookupCallback "R"] else [])
                else [])
            ++ [Event.processTwist input.axes]) := by
  cases b0 <;> cases b1 <;>
    by_cases hL : "L" ∈ d.additional_callbacks <;>
      by_cases hR : "R" ∈ d.additional_callbacks <;>
        simp [listen_for_updates, read_mouse_state, transform_state_to_twist,
          process_twist_command, reset, hb0, hb1, h0, h1, h5, hL, hR]

set_option maxHeartbeats 1600000 in
/-- Inversion: a successful poll presupposes that both button flags and the
three used axis components were in bounds (every complete execution of the
handler reads `buttons[0]`, `buttons[1]`, `twist[0]`, `twist[1]`, `twist[5]`). -/
theorem listen_some_inv (d : Device) (input : MouseState) (d' : Device)
    (tr : List Event) (h : listen_for_updates d input = some (d', tr)) :
    ∃ b0 b1 t0 t1 t5,
      input.buttons[0]? = some b0 ∧ input.buttons[1]? = some b1 ∧
      input.axes[0]? = some t0 ∧ input.axes[1]? = some t1 ∧
      input.axes[5]? = some t5 := by
  cases hb0 : input.buttons[0]? with
  | none => simp [listen_for_updates, read_mouse_state, hb0] at h
  | some b0 =>
    cases hb1 : input.buttons[1]? with
    | none =>
      cases b0 <;>
        by_cases hL : "L" ∈ d.additional_callbacks <;>
          simp [listen_for_updates, read_mouse_state, transform_state_to_twist,
            process_twist_command, reset, hb0, hb1, hL] at h
    | some b1 =>
      cases ha0 : input.axes[0]? with
      | none =>
        cases b0 <;> cases b1 <;>
          by_cases hL : "L" ∈ d.additional_callbacks <;>
            by_cases hR : "R" ∈ d.additional_callbacks <;>
              simp [listen_for_updates, read_mouse_state, transform_state_to_twist,
                process_twist_command, reset, hb0, hb1, ha0, hL, hR] at h
      | some t0 =>
        cases ha1 : input.axes[1]? with
        | none =>
          cases b0 <;> cases b1 <;>
            by_cases hL : "L" ∈ d.additional_callbacks <;>
              by_cases hR : "R" ∈ d.additional_callbacks <;>
                simp [listen_for_updates, read_mouse_state, transform_state_to_twist,
                  process_twist_command, reset, hb0, hb1, ha0, ha1, hL, hR] at h
        | some t1 =>
          cases ha5 : input.axes[5]? with
          | none =>
            cases b0 <;> cases b1 <;>
              by_cases hL : "L" ∈ d.additional_callbacks <;>
                by_cases hR : "R" ∈ d.additional_callbacks <;>
                  simp [listen_for_updates, read_mouse_state,
                    transform_state_to_twist, process_twist_command, reset,
                    hb0, hb1, ha0, ha1, ha5, hL, hR] at h
          | some t5 => exact ⟨b0, b1, t0, t1, t5, rfl, rfl, rfl, rfl, rfl⟩

/-- A successful twist processing always installs a fresh 3-element command. -/
theorem process_twist_length (d : Device) (twist : List ℚ) (d' : Device)
    (h : process_twist_command d twist = some d') :
    d'.base_command.length = 3 := by
  cases h0 : twist[0]? with
  | none => simp [process_twist_command, h0] at h
  | some t0 =>
    cases h1 : twist[1]? with
    | none => simp [process_twist_command, h0, h1] at h
    | some t1 =>
      cases h5 : twist[5]? with
      | none => simp [process_twist_command, h0, h1, h5] at h
      | some t5 =>
        simp [process_twist_command, h0, h1, h5] at h
        rw [← h]
        rfl

/-- A successful poll always leaves a 3-element command. -/
theorem listen_length (d : Device) (input : MouseState) (d' : Device)
    (tr : List Event) (h : listen_for_updates d input = some (d', tr)) :
    d'.base_command.length = 3 := by
  obtain ⟨b0, b1, t0, t1, t5, hb0, hb1, h0, h1, h5⟩ :=
    listen_some_inv d input d' tr h
  rw [listen_eq d input b0 b1 t0 t1 t5 hb0 hb1 h0 h1 h5] at h
  simp only [Option.some.injEq, Prod.mk.injEq] at h
  rw [← h.1]
  rfl

/-- The device states reachable through the object's lifecycle: construction,
callback registration, and the public and internal operations. -/
inductive Reachable : Device → Prop where
  | construct (vx vy wz i : ℚ) (s0 : MouseState) (cb0 : List String) :
      Reachable (init vx vy wz i s0 cb0)
  | register (d : Device) (k : String) : Reachable d →
      Reachable (add_callback d k)
  | reset_op (d : Device) : Reachable d → Reachable (reset d)
  | advance_op (d : Device) : Reachable d → Reachable (advance d).2
  | poll (d : Device) (input : MouseState) (d' : Device) (tr : List Event) :
      Reachable d → listen_for_updates d input = some (d', tr) → Reachable d'
  | twist_op (d : Device) (twist : List ℚ) (d' : Device) :
      Reachable d → process_twist_command d twist = some d' → Reachable d'

/-- Every reachable device state carries a 3-element base command. -/
theorem Reachable.command_length (d : Device) (h : Reachable d) :
    d.base_command.length = 3 := by
  induction h with
  | construct vx vy wz i s0 cb0 => simp [init]
  | register d k _ ih => simpa [add_callback] using ih
  | reset_op d _ ih => simpa [reset] using ih
  | advance_op d _ ih => simpa [advance] using ih
  | poll d input d' tr _ hl _ => exact listen_length d input d' tr hl
  | twist_op d twist d' _ hp _ => exact process_twist_length d twist d' hp

/-- A concrete device builder for the closed evaluation theorems below:
sensitivities `sx`, `sy`, `sw`, interval 10, stored command `cmd`, an empty
last reading, and registered callback keys `cbs`. -/
def mkDevice (sx sy sw : ℚ) (cmd : List ℚ) (cbs : List String) : Device :=
  { v_x_sensitivity := sx
    v_y_sensitivity := sy
    omega_z_sensitivity := sw
    interval_ms := 10
    base_command := cmd
    state := { buttons := [], axes := [] }
    additional_callbacks := cbs }

/-!  Claim theorems. -/

/-- C1: on a left-button-only poll with "L" registered (and a right-button-only
poll with "R" registered) the handler merely evaluates the callback-table entry
(`self._additional_callbacks[k]` is a bare expression statement, not a call):
the trace records the lookup, and no callback-invocation event ever occurs, so
the registered callback is not invoked. -/
theorem C1_lookup_without_invocation :
    (listen_for_updates (mkDevice 1 1 1 [0, 0, 0] ["L"])
        { buttons := [true, false], axes := [1, 2, 3, 4, 5, 6] } =
      some ({ mkDevice 1 1 1 [0, 0, 0] ["L"] with
                state := { buttons := [true, false], axes := [1, 2, 3, 4, 5, 6] }
                base_command := [1, 2, 6] },
        [Event.startTimer 10, Event.readMouseState, Event.lookupCallback "L",
         Event.processTwist [1, 2, 3, 4, 5, 6]])) ∧
    ([Event.startTimer 10, Event.readMouseState, Event.lookupCallback "L",
      Event.processTwist [1, 2, 3, 4, 5, 6]].all
        (fun e => !(e.isInvoke)) = true) ∧
    (listen_for_updates (mkDevice 1 1 1 [7, 8, 9] ["R"])
        { buttons := [false, true], axes := [1, 2, 3, 4, 5, 6] } =
      some ({ mkDevice 1 1 1 [7, 8, 9] ["R"] with
                state := { buttons := [false, true], axes := [1, 2, 3, 4, 5, 6] }
                base_command := [1, 2, 6] },
        [Event.startTimer 10, Event.readMouseState, Event.resetCommand,
         Event.lookupCallback "R", Event.processTwist [1, 2, 3, 4, 5, 6]])) ∧
    ([Event.startTimer 10, Event.readMouseState, Event.resetCommand,
      Event.lookupCallback "R", Event.processTwist [1, 2, 3, 4, 5, 6]].all
        (fun e => !(e.isInvoke)) = true) := by
  refine ⟨?_, by decide, ?_, by decide⟩ <;>
    simp [mkDevice, listen_for_updates, read_mouse_state,
      transform_state_to_twist, process_twist_command, reset]

/-- C2 (counterexample to the claim as stated): a right-button-only poll with
nonzero axes records the reset in its trace, yet the projection then
overwrites the command, so `advance` afterwards returns the (nonzero)
projection instead of the zero vector. -/
theorem C2_counterexample :
    (listen_for_updates (mkDevice 1 1 1 [5, 5, 5] [])
        { buttons := [false, true], axes := [1, 0, 0, 0, 0, 1] } =
      some ({ mkDevice 1 1 1 [5, 5, 5] [] with
                state := { buttons := [false, true], axes := [1, 0, 0, 0, 0, 1] }
                base_command := [1, 0, 1] },
        [Event.startTimer 10, Event.readMouseState, Event.resetCommand,
         Event.processTwist [1, 0, 0, 0, 0, 1]])) ∧
    (advance { mkDevice 1 1 1 [5, 5, 5] [] with
                state := { buttons := [false, true], axes := [1, 0, 0, 0, 0, 1] }
                base_command := [1, 0, 1] }).1 ≠ [0, 0, 0] := by
  constructor
  · simp [mkDevice, listen_for_updates, read_mouse_state,
      transform_state_to_twist, process_twist_command, reset]
  · simp [advance, mkDevice]

/-- C2 (amended): on a right-button-only poll the handler resets the command
(and looks up the "R" entry if registered), but the twist projection runs
unconditionally after the button branches and overwrites the reset, so the
final command — and hence a subsequent `advance` — is the projected twist,
which is zero only when those axis values are zero. -/
theorem C2_amended_projection_overwrites_reset (d : Device) (input : MouseState)
    (t0 t1 t5 : ℚ)
    (hb0 : input.buttons[0]? = some false) (hb1 : input.buttons[1]? = some true)
    (h0 : input.axes[0]? = some t0) (h1 : input.axes[1]? = some t1)
    (h5 : input.axes[5]? = some t5) :
    listen_for_updates d input =
      some
        ({ d with
            state := input
            base_command :=
              [d.v_x_sensitivity * t0, d.v_y_sensitivity * t1,
               d.omega_z_sensitivity * t5] },
          [Event.startTimer d.interval_ms, Event.readMouseState,
           Event.resetCommand]
            ++ (if "R" ∈ d.additional_callbacks then
                  [Event.lookupCallback "R"] else [])
            ++ [Event.processTwist input.axes]) := by
  have h := listen_eq d input false true t0 t1 t5 hb0 hb1 h0 h1 h5
  simpa using h

theorem C2_amended_projection_overwrites_reset_witness :
    listen_for_updates (mkDevice 1 1 1 [5, 5, 5] [])
        { buttons := [false, true], axes := [2, 3, 0, 0, 0, 4] } =
      some
        ({ mkDevice 1 1 1 [5, 5, 5] [] with
            state := { buttons := [false, true], axes := [2, 3, 0, 0, 0, 4] }
            base_command := [1 * 2, 1 * 3, 1 * 4] },
          [Event.startTimer (mkDevice 1 1 1 [5, 5, 5] []).interval_ms,
           Event.readMouseState, Event.resetCommand]
            ++ (if "R" ∈ (mkDevice 1 1 1 [5, 5, 5] []).additional_callbacks then
                  [Event.lookupCallback "R"] else [])
            ++ [Event.processTwist [2, 3, 0, 0, 0, 4]]) :=
  C2_amended_projection_overwrites_reset (mkDevice 1 1 1 [5, 5, 5] [])
    { buttons := [false, true], axes := [2, 3, 0, 0, 0, 4] } 2 3 4
    rfl rfl rfl rfl rfl

/-- C3: processing a twist whose components 0, 1 and 5 exist sets the stored
command to exactly those components scaled by the stored sensitivities (the
formula never reads components 2, 3, 4, so they have no influence), and
`__init__` stores the constructor-supplied sensitivity constants. -/
theorem C3_projection_exact :
    (∀ (d : Device) (twist : List ℚ) (t0 t1 t5 : ℚ),
        twist[0]? = some t0 → twist[1]? = some t1 → twist[5]? = some t5 →
        process_twist_command d twist =
          some { d with
                  base_command :=
                    [d.v_x_sensitivity * t0, d.v_y_sensitivity * t1,
                     d.omega_z_sensitivity * t5] }) ∧
    (∀ (vx vy wz i : ℚ) (s0 : MouseState) (cb0 : List String),
        (init vx vy wz i s0 cb0).v_x_sensitivity = vx ∧
        (init vx vy wz i s0 cb0).v_y_sensitivity = vy ∧
        (init vx vy wz i s0 cb0).omega_z_sensitivity = wz) := by
  constructor
  · intro d twist t0 t1 t5 h0 h1 h5
    simp [process_twist_command, h0, h1, h5]
  · intro vx vy wz i s0 cb0
    exact ⟨rfl, rfl, rfl⟩

theorem C3_projection_exact_witness :
    process_twist_command (mkDevice 2 3 4 [9, 9, 9] []) [1, 1, 0, 7, 7, 1] =
      some { mkDevice 2 3 4 [9, 9, 9] [] with
              base_command := [2 * 1, 3 * 1, 4 * 1] } :=
  C3_projection_exact.1 (mkDevice 2 3 4 [9, 9, 9] []) [1, 1, 0, 7, 7, 1]
    1 1 1 rfl rfl rfl

/-- C4: `advance` returns the currently stored base command and modifies no
state: the post-state is the unchanged device. -/
theorem C4_advance_pure (d : Device) :
    (advance d).1 = d.base_command ∧ (advance d).2 = d :=
  ⟨rfl, rfl⟩

/-- C5: from any reachable object state, `reset` zeroes the stored 3-element
command, so a subsequent `advance` returns `[0, 0, 0]`. -/
theorem C5_reset_zeroes (d : Device) (h : Reachable d) :
    (advance (reset d)).1 = [0, 0, 0] := by
  obtain ⟨a, b, c, habc⟩ :=
    List.length_eq_three.mp (Reachable.command_length d h)
  simp [advance, reset, habc]

theorem C5_reset_zeroes_witness :
    (advance (reset (init 1 1 1 10 { buttons := [], axes := [] } []))).1 =
      [0, 0, 0] :=
  C5_reset_zeroes _ (Reachable.construct 1 1 1 10 { buttons := [], axes := [] } [])

/-- C6: the first two actions of every successful poll are the timer re-arm —
carrying the stored interval — and then the device-state read, before any
button or twist event; `__init__` stores the constructor-supplied interval,
and the default of that argument is 10 (milliseconds). -/
theorem C6_timer_then_read :
    (∀ (d : Device) (input : MouseState) (d' : Device) (tr : List Event),
        listen_for_updates d input = some (d', tr) →
        tr.take 2 = [Event.startTimer d.interval_ms, Event.readMouseState]) ∧
    (∀ (vx vy wz i : ℚ) (s0 : MouseState) (cb0 : List String),
        (init vx vy wz i s0 cb0).interval_ms = i) ∧
    interval_ms_default = 10 := by
  refine ⟨?_, fun vx vy wz i s0 cb0 => rfl, rfl⟩
  intro d input d' tr h
  obtain ⟨b0, b1, t0, t1, t5, hb0, hb1, h0, h1, h5⟩ :=
    listen_some_inv d input d' tr h
  rw [listen_eq d input b0 b1 t0 t1 t5 hb0 hb1 h0 h1 h5] at h
  simp only [Option.some.injEq, Prod.mk.injEq] at h
  rw [← h.2]
  simp

theorem C6_timer_then_read_witness :
    ([Event.startTimer 10, Event.readMouseState,
      Event.processTwist [0, 0, 0, 0, 0, 0]].take 2) =
      [Event.startTimer (mkDevice 1 1 1 [0, 0, 0] []).interval_ms,
       Event.readMouseState] :=
  C6_timer_then_read.1 (mkDevice 1 1 1 [0, 0, 0] [])
    { buttons := [false, false], axes := [0, 0, 0, 0, 0, 0] }
    { mkDevice 1 1 1 [0, 0, 0] [] with
        state := { buttons := [false, false], axes := [0, 0, 0, 0, 0, 0] }
        base_command := [0, 0, 0] }
    [Event.startTimer 10, Event.readMouseState,
     Event.processTwist [0, 0, 0, 0, 0, 0]]
    (by simp [mkDevice, listen_for_updates, read_mouse_state,
          transform_state_to_twist, process_twist_command, reset])

/-- C7: two-run noninterference — for two devices with equal sensitivity
constants and the same twist, the twist transform installs the same command,
whatever commands (or other fields) the two devices held before. -/
theorem C7_twist_noninterference (d1 d2 : Device) (twist : List ℚ)
    (hx : d1.v_x_sensitivity = d2.v_x_sensitivity)
    (hy : d1.v_y_sensitivity = d2.v_y_sensitivity)
    (hw : d1.omega_z_sensitivity = d2.omega_z_sensitivity) :
    (process_twist_command d1 twist).map Device.base_command =
      (process_twist_command d2 twist).map Device.base_command := by
  cases h0 : twist[0]? <;> cases h1 : twist[1]? <;> cases h5 : twist[5]? <;>
    simp [process_twist_command, h0, h1, h5, hx, hy, hw]

theorem C7_twist_noninterference_witness :
    (process_twist_command (mkDevice 1 2 3 [9, 9, 9] ["L"])
        [1, 1, 1, 1, 1, 1]).map Device.base_command =
      (process_twist_command (mkDevice 1 2 3 [0, 0, 0] [])
        [1, 1, 1, 1, 1, 1]).map Device.base_command :=
  C7_twist_noninterference (mkDevice 1 2 3 [9, 9, 9] ["L"])
    (mkDevice 1 2 3 [0, 0, 0] []) [1, 1, 1, 1, 1, 1] rfl rfl rfl

/-- C8: shape invariant — in every device state reachable through
construction, callback registration, `reset`, `advance`, successful polls and
twist processing, the stored base command has exactly 3 elements. -/
theorem C8_command_is_3_vector (d : Device) (h : Reachable d) :
    d.base_command.length = 3 :=
  Reachable.command_length d h

theorem C8_command_is_3_vector_witness :
    (init 1 2 3 10 { buttons := [], axes := [] } ["L"]).base_command.length =
      3 :=
  C8_command_is_3_vector _
    (Reachable.construct 1 2 3 10 { buttons := [], axes := [] } ["L"])

/-- C9 (counterexample to the claim as stated): a both-buttons poll and a
no-buttons poll with the same axes do not produce exactly the same final
state: the stored raw reading differs in its button flags. -/
theorem C9_counterexample :
    listen_for_updates (mkDevice 1 1 1 [0, 0, 0] [])
        { buttons := [true, true], axes := [0, 0, 0, 0, 0, 0] } ≠
      listen_for_updates (mkDevice 1 1 1 [0, 0, 0] [])
        { buttons := [false, false], axes := [0, 0, 0, 0, 0, 0] } := by
  simp [mkDevice, listen_for_updates, read_mouse_state,
    transform_state_to_twist, process_twist_command, reset]

/-- C9 (amended): with both buttons pressed, as with neither, no button branch
runs — the trace shows no callback lookup and no reset — and the poll just
projects the axes: the two runs produce the same trace and the same base
command, and their final states agree on every field except the stored raw
reading, which records the respective button flags. -/
theorem C9_amended_branchless_polls (d : Device) (in1 in2 : MouseState)
    (d1' d2' : Device) (tr1 tr2 : List Event)
    (hb0 : in1.buttons[0]? = some true) (hb1 : in1.buttons[1]? = some true)
    (hc0 : in2.buttons[0]? = some false) (hc1 : in2.buttons[1]? = some false)
    (hax : in1.axes = in2.axes)
    (h1 : listen_for_updates d in1 = some (d1', tr1))
    (h2 : listen_for_updates d in2 = some (d2', tr2)) :
    tr1 = tr2 ∧ d1'.base_command = d2'.base_command ∧
    d1' = { d2' with state := in1 } ∧
    tr1.all (fun e => !(e.isLookup)) = true ∧
    Event.resetCommand ∉ tr1 := by
  obtain ⟨b0, b1, t0, t1, t5, hb0', hb1', h0', h1', h5'⟩ :=
    listen_some_inv d in1 d1' tr1 h1
  rw [hb0] at hb0'
  rw [listen_eq d in1 true true t0 t1 t5 hb0 hb1 h0' h1' h5'] at h1
  rw [listen_eq d in2 false false t0 t1 t5 hc0 hc1 (hax ▸ h0') (hax ▸ h1')
    (hax ▸ h5')] at h2
  simp only [Option.some.injEq, Prod.mk.injEq] at h1 h2
  obtain ⟨hd1, ht1⟩ := h1
  obtain ⟨hd2, ht2⟩ := h2
  subst hd1 hd2 ht1 ht2
  refine ⟨by simp [hax], by simp, by simp, by simp [Event.isLookup], by simp⟩

theorem C9_amended_branchless_polls_witness :
    ([Event.startTimer 10, Event.readMouseState,
      Event.processTwist [0, 0, 0, 0, 0, 0]] : List Event) =
      [Event.startTimer 10, Event.readMouseState,
       Event.processTwist [0, 0, 0, 0, 0, 0]] ∧
    ({ mkDevice 1 1 1 [0, 0, 0] [] with
        state := { buttons := [true, true], axes := [0, 0, 0, 0, 0, 0] }
        base_command := [0, 0, 0] } : Device).base_command =
      ({ mkDevice 1 1 1 [0, 0, 0] [] with
          state := { buttons := [false, false], axes := [0, 0, 0, 0, 0, 0] }
          base_command := [0, 0, 0] } : Device).base_command ∧
    ({ mkDevice 1 1 1 [0, 0, 0] [] with
        state := { buttons := [true, true], axes := [0, 0, 0, 0, 0, 0] }
        base_command := [0, 0, 0] } : Device) =
      { ({ mkDevice 1 1 1 [0, 0, 0] [] with
            state := { buttons := [false, false], axes := [0, 0, 0, 0, 0, 0] }
            base_command := [0, 0, 0] } : Device) with
          state := { buttons := [true, true], axes := [0, 0, 0, 0, 0, 0] } } ∧
    ([Event.startTimer 10, Event.readMouseState,
      Event.processTwist [0, 0, 0, 0, 0, 0]] : List Event).all
        (fun e => !(e.isLookup)) = true ∧
    Event.resetCommand ∉
      ([Event.startTimer 10, Event.readMouseState,
        Event.processTwist [0, 0, 0, 0, 0, 0]] : List Event) :=
  C9_amended_branchless_polls (mkDevice 1 1 1 [0, 0, 0] [])
    { buttons := [true, true], axes := [0, 0, 0, 0, 0, 0] }
    { buttons := [false, false], axes := [0, 0, 0, 0, 0, 0] }
    _ _ _ _ rfl rfl rfl rfl rfl
    (by simp [mkDevice, listen_for_updates, read_mouse_state,
          transform_state_to_twist, process_twist_command, reset])
    (by simp [mkDevice, listen_for_updates, read_mouse_state,
          transform_state_to_twist, process_twist_command, reset])

/-- C10: whenever the reading offers at least 2 button flags and the twist at
least 6 components, the poll handler performs no out-of-bounds access: it
completes with a result instead of the error outcome. -/
theorem C10_no_out_of_bounds (d : Device) (input : MouseState)
    (hb : 2 ≤ input.buttons.length)
    (ha : 6 ≤ (transform_state_to_twist input).length) :
    (listen_for_updates d input).isSome = true := by
  have ha' : 6 ≤ input.axes.length := ha
  obtain ⟨b0, hb0⟩ : ∃ b, input.buttons[0]? = some b := by
    rw [List.getElem?_eq_getElem (by omega)]; exact ⟨_, rfl⟩
  obtain ⟨b1, hb1⟩ : ∃ b, input.buttons[1]? = some b := by
    rw [List.getElem?_eq_getElem (by omega)]; exact ⟨_, rfl⟩
  obtain ⟨t0, h0⟩ : ∃ t, input.axes[0]? = some t := by
    rw [List.getElem?_eq_getElem (by omega)]; exact ⟨_, rfl⟩
  obtain ⟨t1, h1⟩ : ∃ t, input.axes[1]? = some t := by
    rw [List.getElem?_eq_getElem (by omega)]; exact ⟨_, rfl⟩
  obtain ⟨t5, h5⟩ : ∃ t, input.axes[5]? = some t := by
    rw [List.getElem?_eq_getElem (by omega)]; exact ⟨_, rfl⟩
  rw [listen_eq d input b0 b1 t0 t1 t5 hb0 hb1 h0 h1 h5]
  rfl

theorem C10_no_out_of_bounds_witness :
    (listen_for_updates (mkDevice 1 1 1 [0, 0, 0] ["L", "R"])
      { buttons := [true, true], axes := [1, 2, 3, 4, 5, 6] }).isSome = true :=
  C10_no_out_of_bounds (mkDevice 1 1 1 [0, 0, 0] ["L", "R"])
    { buttons := [true, true], axes := [1, 2, 3, 4, 5, 6] }
    (by decide) (by decide)

end Se2SpaceMouse
